import Mathlib

/-!
Shallow embedding of the mainflux authorization-aware coordination core:
the groups service (internal/groups/service.go), the things service and its
metrics middleware file (things/api/metrics.go), the users clients service,
and the read-side group tree assembly (groups api endpoints).

Each service operation is modelled as a pure function from an environment
(the oracles for the auth client, repositories, cache, hasher and id
provider) to a result together with the ordered trace of external calls the
operation issued.  Fallible collaborators return Except values; machine
state (the identity cache) is passed explicitly through the environment.
-/

/-- Errors of the embedded services, mirroring the Go error values.  The
wrap constructor mirrors errors.Wrap(outer, inner). -/
inductive Err where
  | authorization
  | authentication
  | invalidStatus
  | invalidRole
  | invalidMemberKind
  | statusAlreadyAssigned
  | missingSecret
  | malformedEntity
  | parentUnAuthz
  | addPoliciesFailed
  | deletePoliciesFailed
  | passwordFormat
  | notFound
  | transport (code : Nat)
  | wrap (outer inner : Err)
deriving DecidableEq, Repr

/-- Client status, mirroring pkg/clients Status (enabled and disabled are
the two valid values; other stands for any other numeric value). -/
inductive Status where
  | enabled
  | disabled
  | other
deriving DecidableEq, Repr

/-- Client role, mirroring pkg/clients (UserRole, AdminRole). -/
inductive Role where
  | user
  | admin
  | otherRole
deriving DecidableEq, Repr

/-- Client credentials: identity plus secret, mirroring mfclients.Credentials. -/
structure Credentials where
  identity : String := ""
  secret : String := ""
deriving DecidableEq, Repr

/-- A client (user or thing), mirroring mfclients.Client.  Metadata is
opaque to the core and is modelled as a string. -/
structure Client where
  id : String := ""
  name : String := ""
  tags : List String := []
  owner : String := ""
  credentials : Credentials := {}
  metadata : String := ""
  createdAt : Nat := 0
  updatedAt : Nat := 0
  updatedBy : String := ""
  status : Status := .enabled
  role : Role := .user
deriving DecidableEq, Repr

/-- A group, mirroring pkg/groups MfGroup.  Children is the transient field
populated only by response tree building; metadata is opaque. -/
inductive MfGroup : Type where
  | mk (id owner parent name description metadata : String)
       (level : Int) (path : String) (children : List MfGroup)
       (createdAt updatedAt : Nat) (updatedBy : String) (status : Status) : MfGroup

def MfGroup.id : MfGroup → String
  | .mk i _ _ _ _ _ _ _ _ _ _ _ _ => i

def MfGroup.owner : MfGroup → String
  | .mk _ o _ _ _ _ _ _ _ _ _ _ _ => o

def MfGroup.parent : MfGroup → String
  | .mk _ _ p _ _ _ _ _ _ _ _ _ _ => p

def MfGroup.name : MfGroup → String
  | .mk _ _ _ n _ _ _ _ _ _ _ _ _ => n

def MfGroup.children : MfGroup → List MfGroup
  | .mk _ _ _ _ _ _ _ _ c _ _ _ _ => c

def MfGroup.updatedBy : MfGroup → String
  | .mk _ _ _ _ _ _ _ _ _ _ _ u _ => u

def MfGroup.status : MfGroup → Status
  | .mk _ _ _ _ _ _ _ _ _ _ _ _ s => s

def MfGroup.setID : MfGroup → String → MfGroup
  | .mk _ o p n d m l pa c ca ua ub st, i => .mk i o p n d m l pa c ca ua ub st

def MfGroup.setOwner : MfGroup → String → MfGroup
  | .mk i _ p n d m l pa c ca ua ub st, o => .mk i o p n d m l pa c ca ua ub st

def MfGroup.setCreatedAt : MfGroup → Nat → MfGroup
  | .mk i o p n d m l pa c _ ua ub st, ca => .mk i o p n d m l pa c ca ua ub st

def MfGroup.setUpdatedAt : MfGroup → Nat → MfGroup
  | .mk i o p n d m l pa c ca _ ub st, ua => .mk i o p n d m l pa c ca ua ub st

def MfGroup.setUpdatedBy : MfGroup → String → MfGroup
  | .mk i o p n d m l pa c ca ua _ st, ub => .mk i o p n d m l pa c ca ua ub st

def MfGroup.setStatus : MfGroup → Status → MfGroup
  | .mk i o p n d m l pa c ca ua ub _, st => .mk i o p n d m l pa c ca ua ub st

def MfGroup.setChildren : MfGroup → List MfGroup → MfGroup
  | .mk i o p n d m l pa _ ca ua ub st, c => .mk i o p n d m l pa c ca ua ub st

/-- The zero MfGroup value. -/
def emptyGroup : MfGroup := .mk "" "" "" "" "" "" 0 "" [] 0 0 "" .enabled

/-- Authorization request, mirroring mainflux.AuthorizeReq. -/
structure AuthorizeReq where
  subjectType : String := ""
  subjectKind : String := ""
  subject : String := ""
  permission : String := ""
  objectType : String := ""
  object : String := ""
deriving DecidableEq, Repr

/-- Authorization response: the granted flag and the resolved subject id. -/
structure AuthorizeRes where
  authorized : Bool := false
  id : String := ""
deriving DecidableEq, Repr

/-- A policy tuple write or delete request, mirroring mainflux.AddPolicyReq
and mainflux.DeletePolicyReq (which have the same shape). -/
structure PolicyReq where
  subjectType : String := ""
  subject : String := ""
  relation : String := ""
  permission : String := ""
  objectType : String := ""
  object : String := ""
deriving DecidableEq, Repr

/-- Request for the set of objects a subject may reach, mirroring
mainflux.ListObjectsReq. -/
structure ListObjectsReq where
  subjectType : String := ""
  subject : String := ""
  relation : String := ""
  permission : String := ""
  objectType : String := ""
deriving DecidableEq, Repr

/-- Request for the set of subjects that may reach an object, mirroring
mainflux.ListSubjectsReq. -/
structure ListSubjectsReq where
  subjectType : String := ""
  relation : String := ""
  permission : String := ""
  objectType : String := ""
  object : String := ""
deriving DecidableEq, Repr

/-- One member entry of a members page, mirroring groups.Member. -/
structure Member where
  id : String := ""
  type : String := ""
deriving DecidableEq, Repr

/-- Page of members, mirroring groups.MembersPage. -/
structure MembersPage where
  total : Nat := 0
  offset : Nat := 0
  limit : Nat := 0
  members : List Member := []

/-- Page of groups, mirroring groups.Page (pagination window plus groups). -/
structure GroupsPage where
  total : Nat := 0
  offset : Nat := 0
  limit : Nat := 0
  level : Nat := 0
  groups : List MfGroup := []

/-- One external call issued by a service operation, with its arguments.
The trace of these calls is what the effect-ordering claims are about. -/
inductive Call where
  | authIdentify (token : String)
  | authAuthorize (req : AuthorizeReq)
  | authAddPolicy (req : PolicyReq)
  | authDeletePolicy (req : PolicyReq)
  | authListAllObjects (req : ListObjectsReq)
  | authListAllSubjects (req : ListSubjectsReq)
  | idGen
  | hashSecret (s : String)
  | groupsSave (g : MfGroup)
  | groupsUpdate (g : MfGroup)
  | groupsRetrieveByID (id : String)
  | groupsRetrieveByIDs (ids : List String)
  | groupsChangeStat (g : MfGroup)
  | clientsSave (cs : List Client)
  | clientsSaveOne (c : Client)
  | clientsUpdateSecret (c : Client)
  | clientsRetrieveByID (id : String)
  | clientsRetrieveBySecret (key : String)
  | clientsChangeStat (c : Client)
  | clientsIsOwner (clientID ownerID : String)
  | cacheID (key : String)
  | cacheSave (key id : String)
  | cacheRemove (id : String)

/-- True for calls that cross the network: all auth client calls, all
repository calls and all cache calls.  Id generation and hashing are local. -/
def Call.isNetwork : Call → Bool
  | .idGen => false
  | .hashSecret _ => false
  | _ => true

/-- True for the policy engine tuple operations and the repository calls,
that is every network call other than identify and authorize. -/
def Call.isPolicyOrRepo : Call → Bool
  | .authIdentify _ => false
  | .authAuthorize _ => false
  | .idGen => false
  | .hashSecret _ => false
  | _ => true

/-- True for a persistence write of the group record or a tuple write. -/
def Call.isGroupWrite : Call → Bool
  | .groupsSave _ => true
  | .authAddPolicy _ => true
  | _ => false

/-- True for the persistence status-change calls. -/
def Call.isChangeStat : Call → Bool
  | .groupsChangeStat _ => true
  | .clientsChangeStat _ => true
  | _ => false

/-- True for the storage lookup that resolves a client by its secret. -/
def Call.isBySecretLookup : Call → Bool
  | .clientsRetrieveBySecret _ => true
  | _ => false

/-- True for a cache write. -/
def Call.isCacheWrite : Call → Bool
  | .cacheSave _ _ => true
  | _ => false

/-- Sequencing of traced fallible computations: on error the trace so far
is returned, otherwise the continuation runs and its trace is appended.
This mirrors the early-return style of the Go code. -/
def step {α β : Type} (r : Except Err α × List Call)
    (k : α → Except Err β × List Call) : Except Err β × List Call :=
  match r with
  | (.error e, tr) => (.error e, tr)
  | (.ok a, tr) => ((k a).1, tr ++ (k a).2)

theorem step_ok {α β : Type} (a : α) (tr : List Call)
    (k : α → Except Err β × List Call) :
    step (.ok a, tr) k = ((k a).1, tr ++ (k a).2) := rfl

theorem step_error {α β : Type} (e : Err) (tr : List Call)
    (k : α → Except Err β × List Call) :
    step (.error e, tr) k = (.error e, tr) := rfl

-- String constants from internal/groups/service.go and things/api.
def ownerRelation : String := "owner"
def groupRelation : String := "group"
def parentGroupRelation : String := "parent_group"
def usersKind : String := "users"
def groupsKind : String := "groups"
def thingsKind : String := "things"
def userType : String := "user"
def groupType : String := "group"
def thingType : String := "thing"
def deletePermission : String := "delete"
def editPermission : String := "edit"
def viewPermission : String := "view"
def tokenKind : String := "token"

/-- Environment of the groups service: the auth client, the id provider,
the group repository and the clock. -/
structure GroupsEnv where
  authIdentify : String → Except Err String
  authAuthorize : AuthorizeReq → Except Err AuthorizeRes
  authAddPolicy : PolicyReq → Except Err AuthorizeRes
  authDeletePolicy : PolicyReq → Except Err AuthorizeRes
  authListAllObjects : ListObjectsReq → Except Err (List String)
  authListAllSubjects : ListSubjectsReq → Except Err (List String)
  idGen : Except Err String
  now : Nat
  gSave : MfGroup → Except Err MfGroup
  gUpdate : MfGroup → Except Err MfGroup
  gRetrieveByID : String → Except Err MfGroup
  gRetrieveByIDs : GroupsPage → List String → Except Err GroupsPage
  gChangeStat : MfGroup → Except Err MfGroup

def GroupsEnv.callIdentify (env : GroupsEnv) (token : String) :
    Except Err String × List Call :=
  (env.authIdentify token, [.authIdentify token])

def GroupsEnv.callIdGen (env : GroupsEnv) : Except Err String × List Call :=
  (env.idGen, [.idGen])

def GroupsEnv.callAddPolicy (env : GroupsEnv) (p : PolicyReq) :
    Except Err AuthorizeRes × List Call :=
  (env.authAddPolicy p, [.authAddPolicy p])

def GroupsEnv.callDeletePolicy (env : GroupsEnv) (p : PolicyReq) :
    Except Err AuthorizeRes × List Call :=
  (env.authDeletePolicy p, [.authDeletePolicy p])

def GroupsEnv.callListAllObjects (env : GroupsEnv) (r : ListObjectsReq) :
    Except Err (List String) × List Call :=
  (env.authListAllObjects r, [.authListAllObjects r])

def GroupsEnv.callListAllSubjects (env : GroupsEnv) (r : ListSubjectsReq) :
    Except Err (List String) × List Call :=
  (env.authListAllSubjects r, [.authListAllSubjects r])

def GroupsEnv.callGSave (env : GroupsEnv) (g : MfGroup) :
    Except Err MfGroup × List Call :=
  (env.gSave g, [.groupsSave g])

def GroupsEnv.callGRetrieveByID (env : GroupsEnv) (id : String) :
    Except Err MfGroup × List Call :=
  (env.gRetrieveByID id, [.groupsRetrieveByID id])

def GroupsEnv.callGRetrieveByIDs (env : GroupsEnv) (gm : GroupsPage)
    (ids : List String) : Except Err GroupsPage × List Call :=
  (env.gRetrieveByIDs gm ids, [.groupsRetrieveByIDs ids])

def GroupsEnv.callGChangeStat (env : GroupsEnv) (g : MfGroup) :
    Except Err MfGroup × List Call :=
  (env.gChangeStat g, [.groupsChangeStat g])

/-- svc.authorize of the groups service: subject kind is token, transport
failures are wrapped in the authorization error, a not-granted response is
the bare authorization error, success returns the resolved id. -/
def gAuthorize (env : GroupsEnv)
    (subjectType subject permission objectType object : String) :
    Except Err String × List Call :=
  let req : AuthorizeReq :=
    { subjectType := subjectType, subjectKind := tokenKind, subject := subject,
      permission := permission, objectType := objectType, object := object }
  match env.authAuthorize req with
  | .error e => (.error (.wrap .authorization e), [.authAuthorize req])
  | .ok res =>
    if res.authorized then (.ok res.id, [.authAuthorize req])
    else (.error .authorization, [.authAuthorize req])

/-- CreateGroup of internal/groups/service.go: identify, fresh id, status
check, owner defaulting, optional parent authorization, save, ownership
tuple, optional parent linkage tuple. -/
def CreateGroup (env : GroupsEnv) (token : String) (g : MfGroup) :
    Except Err MfGroup × List Call :=
  step (env.callIdentify token) fun ownerID =>
  step env.callIdGen fun groupID =>
  if ¬ (g.status = .enabled ∨ g.status = .disabled) then
    (.error .invalidStatus, [])
  else
    let g := if g.owner = "" then g.setOwner ownerID else g
    let g := (g.setID groupID).setCreatedAt env.now
    step (if g.parent ≠ "" then
            match gAuthorize env userType token editPermission groupType g.parent with
            | (.error e, tr) => (.error (.wrap .parentUnAuthz e), tr)
            | (.ok x, tr) => (.ok x, tr)
          else (.ok "", [])) fun _ =>
    step (env.callGSave g) fun g =>
    let policy : PolicyReq :=
      { subjectType := userType, subject := ownerID, relation := ownerRelation,
        objectType := groupType, object := g.id }
    step (env.callAddPolicy policy) fun _ =>
    if g.parent ≠ "" then
      let policy2 : PolicyReq :=
        { subjectType := groupType, subject := g.parent,
          relation := parentGroupRelation, objectType := groupType,
          object := g.id }
      step (env.callAddPolicy policy2) fun _ => (.ok g, [])
    else (.ok g, [])

/-- ListGroups of internal/groups/service.go: identify, list the allowed
group objects of the caller; for the things member kind also list the group
subjects of the thing and keep only ids occurring in both lists; retrieve
the groups by the candidate ids. -/
def ListGroups (env : GroupsEnv) (token memberKind memberID : String)
    (gm : GroupsPage) : Except Err GroupsPage × List Call :=
  step (env.callIdentify token) fun userID =>
  let objReq : ListObjectsReq :=
    { subjectType := userType, subject := userID,
      permission := viewPermission, objectType := groupType }
  step (env.callListAllObjects objReq) fun allowedIDs =>
  step (if memberKind = thingsKind then
          let subjReq : ListSubjectsReq :=
            { subjectType := groupType, permission := viewPermission,
              objectType := thingType, object := memberID }
          step (env.callListAllSubjects subjReq) fun cids =>
            (.ok (cids.flatMap fun cid => allowedIDs.filter fun id => id == cid), [])
        else (.ok allowedIDs, [])) fun ids =>
  step (env.callGRetrieveByIDs gm ids) fun page => (.ok page, [])

/-- ListMembers of internal/groups/service.go: authorize view on the
group, then list things by the fixed group relation or users by the
supplied permission; any other member kind is the invalid member kind
error. -/
def ListMembers (env : GroupsEnv) (token groupID permission memberKind : String) :
    Except Err MembersPage × List Call :=
  step (gAuthorize env userType token viewPermission groupType groupID) fun _ =>
  if memberKind = thingsKind then
    let req : ListObjectsReq :=
      { subjectType := groupType, subject := groupID,
        relation := groupRelation, objectType := thingType }
    step (env.callListAllObjects req) fun tids =>
      let members := tids.map fun id => ({ id := id, type := thingType } : Member)
      (.ok { total := members.length, offset := 0, limit := members.length,
             members := members }, [])
  else if memberKind = usersKind then
    let req : ListSubjectsReq :=
      { subjectType := userType, permission := permission,
        objectType := groupType, object := groupID }
    step (env.callListAllSubjects req) fun uids =>
      let members := uids.map fun id => ({ id := id, type := userType } : Member)
      (.ok { total := members.length, offset := 0, limit := members.length,
             members := members }, [])
  else (.error .invalidMemberKind, [])

/-- Sequential tuple writes of Assign: fail fast on the first error, with
the Go wrapping of the add policies failure. -/
def addPolicies (env : GroupsEnv) : List PolicyReq → Except Err Unit × List Call
  | [] => (.ok (), [])
  | p :: ps =>
    match env.authAddPolicy p with
    | .error e => (.error (.wrap .addPoliciesFailed e), [.authAddPolicy p])
    | .ok _ =>
      let r := addPolicies env ps
      (r.1, .authAddPolicy p :: r.2)

/-- Sequential tuple deletes of Unassign: fail fast on the first error. -/
def deletePolicies (env : GroupsEnv) : List PolicyReq → Except Err Unit × List Call
  | [] => (.ok (), [])
  | p :: ps =>
    match env.authDeletePolicy p with
    | .error e => (.error (.wrap .deletePoliciesFailed e), [.authDeletePolicy p])
    | .ok _ =>
      let r := deletePolicies env ps
      (r.1, .authDeletePolicy p :: r.2)

/-- Assign of internal/groups/service.go: authorize edit on the group,
orient a tuple per member by member kind, fail on any other kind, then
write the tuples one by one. -/
def Assign (env : GroupsEnv) (token groupID relation memberKind : String)
    (memberIDs : List String) : Except Err Unit × List Call :=
  step (gAuthorize env userType token editPermission groupType groupID) fun _ =>
  if memberKind = thingsKind then
    addPolicies env (memberIDs.map fun m =>
      { subjectType := groupType, subject := groupID, relation := relation,
        objectType := thingType, object := m })
  else if memberKind = groupsKind then
    addPolicies env (memberIDs.map fun m =>
      { subjectType := groupType, subject := m, relation := relation,
        objectType := groupType, object := groupID })
  else if memberKind = usersKind then
    addPolicies env (memberIDs.map fun m =>
      { subjectType := userType, subject := m, relation := relation,
        objectType := groupType, object := groupID })
  else (.error .invalidMemberKind, [])

/-- Unassign of internal/groups/service.go: same shape as Assign with
tuple deletes. -/
def Unassign (env : GroupsEnv) (token groupID relation memberKind : String)
    (memberIDs : List String) : Except Err Unit × List Call :=
  step (gAuthorize env userType token editPermission groupType groupID) fun _ =>
  if memberKind = thingsKind then
    deletePolicies env (memberIDs.map fun m =>
      { subjectType := groupType, subject := groupID, relation := relation,
        objectType := thingType, object := m })
  else if memberKind = groupsKind then
    deletePolicies env (memberIDs.map fun m =>
      { subjectType := groupType, subject := m, relation := relation,
        objectType := groupType, object := groupID })
  else if memberKind = usersKind then
    deletePolicies env (memberIDs.map fun m =>
      { subjectType := userType, subject := m, relation := relation,
        objectType := groupType, object := groupID })
  else (.error .invalidMemberKind, [])

/-- changeGroupStatus of internal/groups/service.go: authorize edit, load
the stored record, reject a no-op transition with the conflict error, else
persist the status change stamped with the resolved identity. -/
def changeGroupStatus (env : GroupsEnv) (token : String) (group : MfGroup) :
    Except Err MfGroup × List Call :=
  step (gAuthorize env userType token editPermission groupType group.id) fun id =>
  step (env.callGRetrieveByID group.id) fun dbGroup =>
  if dbGroup.status = group.status then (.error .statusAlreadyAssigned, [])
  else
    step (env.callGChangeStat (group.setUpdatedBy id)) fun g => (.ok g, [])

/-- EnableGroup of internal/groups/service.go. -/
def EnableGroup (env : GroupsEnv) (token id : String) :
    Except Err MfGroup × List Call :=
  changeGroupStatus env token
    (((emptyGroup.setID id).setStatus .enabled).setUpdatedAt env.now)

/-- DisableGroup of internal/groups/service.go. -/
def DisableGroup (env : GroupsEnv) (token id : String) :
    Except Err MfGroup × List Call :=
  changeGroupStatus env token
    (((emptyGroup.setID id).setStatus .disabled).setUpdatedAt env.now)

/-- Environment of the things service: auth client, id provider, client
repository, identity cache and clock. -/
structure ThingsEnv where
  authIdentify : String → Except Err String
  authAuthorize : AuthorizeReq → Except Err AuthorizeRes
  idGen : Except Err String
  now : Nat
  cSave : List Client → Except Err (List Client)
  cRetrieveByID : String → Except Err Client
  cRetrieveBySecret : String → Except Err Client
  cUpdateSecret : Client → Except Err Client
  cChangeStat : Client → Except Err Client
  cacheID : String → Except Err String
  cacheSave : String → String → Except Err Unit
  cacheRemove : String → Except Err Unit

def ThingsEnv.callIdentify (env : ThingsEnv) (token : String) :
    Except Err String × List Call :=
  (env.authIdentify token, [.authIdentify token])

/-- svc.authorize of the things service: no subject kind is set, transport
failures are wrapped in the authorization error, a not-granted response is
the bare authorization error. -/
def tAuthorize (env : ThingsEnv)
    (subjectType subject permission objectType object : String) :
    Except Err Unit × List Call :=
  let req : AuthorizeReq :=
    { subjectType := subjectType, subject := subject, permission := permission,
      objectType := objectType, object := object }
  match env.authAuthorize req with
  | .error e => (.error (.wrap .authorization e), [.authAuthorize req])
  | .ok res =>
    if res.authorized then (.ok (), [.authAuthorize req])
    else (.error .authorization, [.authAuthorize req])

/-- The per-client preparation loop of CreateThings: default the id and the
secret from the id provider, default the owner from the caller identity,
reject an invalid status, stamp the creation time.  The supplied secret is
kept as it is; the things service has no hasher. -/
def prepareThings (env : ThingsEnv) (userID : String) :
    List Client → Except Err (List Client) × List Call
  | [] => (.ok [], [])
  | cli :: rest =>
    step (if cli.id = "" then (env.idGen, [.idGen]) else (.ok cli.id, [])) fun cid =>
    let cli := { cli with id := cid }
    step (if cli.credentials.secret = "" then (env.idGen, [.idGen])
          else (.ok cli.credentials.secret, [])) fun key =>
    let cli := { cli with credentials := { cli.credentials with secret := key } }
    let cli := if cli.owner = "" then { cli with owner := userID } else cli
    if ¬ (cli.status = .disabled ∨ cli.status = .enabled) then
      (.error .invalidStatus, [])
    else
      let cli := { cli with createdAt := env.now }
      step (prepareThings env userID rest) fun cs => (.ok (cli :: cs), [])

/-- CreateThings of the things service: identify the caller, prepare every
client, then save them all in one repository call. -/
def thingsCreateThings (env : ThingsEnv) (token : String) (clis : List Client) :
    Except Err (List Client) × List Call :=
  step (env.callIdentify token) fun userID =>
  step (prepareThings env userID clis) fun clients =>
  step ((env.cSave clients, [.clientsSave clients])) fun saved => (.ok saved, [])

/-- UpdateClientSecret of the things service: identify the caller, then
authorize edit with the caller identity as both subject and object, and
persist the supplied key as the new secret of the client with the given id. -/
def thingsUpdateClientSecret (env : ThingsEnv) (token id key : String) :
    Except Err Client × List Call :=
  step (env.callIdentify token) fun userID =>
  step (tAuthorize env userType userID editPermission thingType userID) fun _ =>
  let client : Client :=
    { id := id, credentials := { identity := "", secret := key },
      updatedAt := env.now, updatedBy := userID, status := .enabled }
  step ((env.cUpdateSecret client, [.clientsUpdateSecret client])) fun c =>
    (.ok c, [])

/-- changeClientStatus of the things service: identify, authorize the
delete permission on the client, load the stored record, reject a no-op
transition with the conflict error, else persist the change. -/
def thingsChangeClientStatus (env : ThingsEnv) (token : String) (client : Client) :
    Except Err Client × List Call :=
  step (env.callIdentify token) fun userID =>
  step (tAuthorize env userType userID deletePermission thingType client.id) fun _ =>
  step ((env.cRetrieveByID client.id, [.clientsRetrieveByID client.id])) fun dbClient =>
  if dbClient.status = client.status then (.error .statusAlreadyAssigned, [])
  else
    step ((env.cChangeStat { client with updatedBy := userID },
           [.clientsChangeStat { client with updatedBy := userID }])) fun c =>
      (.ok c, [])

/-- Identify of the things service: return the cached id on a hit; on a
miss resolve the client by secret from storage, write the pair through to
the cache and return the resolved id. -/
def thingsIdentify (env : ThingsEnv) (key : String) :
    Except Err String × List Call :=
  match env.cacheID key with
  | .ok id => (.ok id, [.cacheID key])
  | .error _ =>
    match env.cRetrieveBySecret key with
    | .error e => (.error e, [.cacheID key, .clientsRetrieveBySecret key])
    | .ok client =>
      match env.cacheSave key client.id with
      | .error e =>
        (.error e, [.cacheID key, .clientsRetrieveBySecret key,
                    .cacheSave key client.id])
      | .ok _ =>
        (.ok client.id, [.cacheID key, .clientsRetrieveBySecret key,
                         .cacheSave key client.id])

/-- The things environment after a successful cache write of the pair
(key, id): the cache lookup of that key now hits. -/
def cacheUpdated (env : ThingsEnv) (key id : String) : ThingsEnv :=
  { env with cacheID := fun k => if k = key then .ok id else env.cacheID k }

/-- Environment of the users clients service: auth client, id provider,
hasher, password rule, client repository and clock. -/
structure UsersEnv where
  authIdentify : String → Except Err String
  idGen : Except Err String
  now : Nat
  hash : String → Except Err String
  passRegexMatch : String → Bool
  uSave : Client → Except Err Client
  uRetrieveByID : String → Except Err Client
  uUpdateSecret : Client → Except Err Client
  uIsOwner : String → String → Except Err Unit

/-- RegisterClient of the users service: the identify error is deliberately
ignored (registration accepts an empty token, the owner simply stays
unset), the secret must be present and is hashed before the record is
saved, status and role are validated. -/
def usersRegisterClient (env : UsersEnv) (token : String) (cli : Client) :
    Except Err Client × List Call :=
  step ((.ok (match env.authIdentify token with
              | .ok u => u
              | .error _ => ""), [.authIdentify token])) fun ownerID =>
  step ((env.idGen, [.idGen])) fun clientID =>
  let cli := if cli.owner = "" ∧ ownerID ≠ "" then { cli with owner := ownerID } else cli
  if cli.credentials.secret = "" then (.error .missingSecret, [])
  else
  step ((match env.hash cli.credentials.secret with
         | .error e => .error (.wrap .malformedEntity e)
         | .ok h => .ok h, [.hashSecret cli.credentials.secret])) fun h =>
  let cli := { cli with credentials := { cli.credentials with secret := h } }
  if ¬ (cli.status = .disabled ∨ cli.status = .enabled) then
    (.error .invalidStatus, [])
  else if ¬ (cli.role = .user ∨ cli.role = .admin) then
    (.error .invalidRole, [])
  else
    let cli := { cli with id := clientID, createdAt := env.now }
    step ((env.uSave cli, [.clientsSaveOne cli])) fun client => (.ok client, [])

/-- ViewClient of the users service: identify the caller, require
ownership when viewing another client, then blank the stored secret in the
returned record. -/
def usersViewClient (env : UsersEnv) (token id : String) :
    Except Err Client × List Call :=
  step ((env.authIdentify token, [.authIdentify token])) fun tokenUserID =>
  step (if tokenUserID ≠ id then
          (env.uIsOwner id tokenUserID, [.clientsIsOwner id tokenUserID])
        else (.ok (), [])) fun _ =>
  step ((env.uRetrieveByID id, [.clientsRetrieveByID id])) fun client =>
  (.ok { client with credentials := { client.credentials with secret := "" } }, [])

/-- ViewProfile of the users service: identify the caller, load the own
record, blank the stored secret in the returned record. -/
def usersViewProfile (env : UsersEnv) (token : String) :
    Except Err Client × List Call :=
  step ((env.authIdentify token, [.authIdentify token])) fun id =>
  step ((env.uRetrieveByID id, [.clientsRetrieveByID id])) fun client =>
  (.ok { client with credentials := { client.credentials with secret := "" } }, [])

/-- ResetSecret of the users service: identify the reset token (wrapping a
failure in the authentication error), load the record, require a set
identity, validate the password rule, hash the new secret and persist it. -/
def usersResetSecret (env : UsersEnv) (resetToken secret : String) :
    Except Err Unit × List Call :=
  step ((match env.authIdentify resetToken with
         | .error e => .error (.wrap .authentication e)
         | .ok id => .ok id, [.authIdentify resetToken])) fun id =>
  step ((env.uRetrieveByID id, [.clientsRetrieveByID id])) fun c =>
  if c.credentials.identity = "" then (.error .notFound, [])
  else if ¬ env.passRegexMatch secret then (.error .passwordFormat, [])
  else
  step ((env.hash secret, [.hashSecret secret])) fun h =>
  let c2 : Client :=
    { credentials := { identity := c.credentials.identity, secret := h },
      updatedAt := env.now, updatedBy := id }
  step ((env.uUpdateSecret c2, [.clientsUpdateSecret c2])) fun _ => (.ok (), [])

/-- View wrapper of one group in a page response, mirroring viewGroupRes. -/
structure ViewGroupRes where
  group : MfGroup

/-- Group page response, mirroring groupPageRes. -/
structure GroupPageRes where
  total : Nat := 0
  offset : Nat := 0
  limit : Nat := 0
  level : Nat := 0
  groups : List ViewGroupRes := []

/-- First pass of the tree builder: the id index keeps the first group for
each id, mirroring the construction of groupsMap. -/
def dedupByID : List MfGroup → List String → List MfGroup
  | [], _ => []
  | g :: gs, seen =>
    if g.id ∈ seen then dedupByID gs seen
    else g :: dedupByID gs (g.id :: seen)

/-- Recursive materialisation of the child buckets: the bucket of an id
present in the index is the list of groups of the index whose parent is
that id, and each child in turn carries its own bucket as children.  The
fuel bounds the depth and is instantiated with the index size. -/
def attachChildren (gs : List MfGroup) : Nat → MfGroup → MfGroup
  | 0, g => g
  | fuel + 1, g =>
    g.setChildren ((gs.filter fun x => x.parent == g.id).map
      (attachChildren gs fuel))

/-- buildGroupsResponseTree of the groups api endpoints: index the page by
id (first occurrence wins), append every group to the child bucket of its
parent when that bucket exists, and surface as forest roots exactly the
groups whose parent bucket is absent (parent not in the page) or empty. -/
def buildGroupsResponseTree (page : GroupsPage) : GroupPageRes :=
  let gs := dedupByID page.groups []
  let ids := gs.map MfGroup.id
  let roots := gs.filter fun g =>
    if g.parent ∈ ids then (gs.filter fun x => x.parent == g.parent).isEmpty
    else true
  { total := page.total, offset := page.offset, limit := page.limit,
    level := page.level,
    groups := roots.map fun g => { group := attachChildren gs gs.length g } }

@[simp]
theorem setID_parent (g : MfGroup) (i : String) : (g.setID i).parent = g.parent := by
  cases g; rfl

@[simp]
theorem setOwner_parent (g : MfGroup) (o : String) : (g.setOwner o).parent = g.parent := by
  cases g; rfl

@[simp]
theorem setCreatedAt_parent (g : MfGroup) (n : Nat) : (g.setCreatedAt n).parent = g.parent := by
  cases g; rfl

@[simp]
theorem setID_id (g : MfGroup) (i : String) : (g.setID i).id = i := by
  cases g; rfl

@[simp]
theorem setCreatedAt_id (g : MfGroup) (n : Nat) : (g.setCreatedAt n).id = g.id := by
  cases g; rfl

@[simp]
theorem setOwner_id (g : MfGroup) (o : String) : (g.setOwner o).id = g.id := by
  cases g; rfl

@[simp]
theorem setUpdatedBy_id (g : MfGroup) (u : String) : (g.setUpdatedBy u).id = g.id := by
  cases g; rfl

@[simp]
theorem setUpdatedBy_status (g : MfGroup) (u : String) : (g.setUpdatedBy u).status = g.status := by
  cases g; rfl

/-- A group with only an id and a parent set, as used by the tree-assembly
examples. -/
def c6group (id parent : String) : MfGroup :=
  .mk id "" parent "" "" "" 0 "" [] 0 0 "" .enabled

/-- The three-group chain page: 1 is a root, 2 under 1, 3 under 2. -/
def c6page1 : GroupsPage := { groups := [c6group "1" "", c6group "2" "1", c6group "3" "2"] }

/-- The orphan page: only group 2, whose parent 1 is absent. -/
def c6page2 : GroupsPage := { groups := [c6group "2" "1"] }

/-- Claim C6: tree assembly over the flat page [(1, parent empty),
(2, parent 1), (3, parent 2)] yields exactly one root, group 1, whose only
child is group 2, whose only child is group 3 with no further children; and
the page [(2, parent 1)] alone, with the ancestor 1 absent, yields group 2
as a root rather than an error. -/
theorem c6_tree_assembly :
    ((buildGroupsResponseTree c6page1).groups.map fun v => v.group.id) = ["1"] ∧
    ((buildGroupsResponseTree c6page1).groups.map fun v =>
        v.group.children.map MfGroup.id) = [["2"]] ∧
    ((buildGroupsResponseTree c6page1).groups.map fun v =>
        v.group.children.map fun c => c.children.map MfGroup.id) = [[["3"]]] ∧
    ((buildGroupsResponseTree c6page1).groups.map fun v =>
        v.group.children.map fun c => c.children.map fun d =>
          d.children.map MfGroup.id) = [[[[]]]] ∧
    ((buildGroupsResponseTree c6page2).groups.map fun v => v.group.id) = ["2"] ∧
    ((buildGroupsResponseTree c6page2).groups.map fun v =>
        v.group.children.map MfGroup.id) = [[]] :=
  ⟨rfl, rfl, rfl, rfl, rfl, rfl⟩

/-- The authorize request issued by ListMembers before the member kind is
inspected: view permission on the group, with the token as subject. -/
def viewAuthReq (token groupID : String) : AuthorizeReq :=
  { subjectType := userType, subjectKind := tokenKind, subject := token,
    permission := viewPermission, objectType := groupType, object := groupID }

/-- The authorize request issued by Assign and Unassign before the member
kind is inspected: edit permission on the group, with the token as subject. -/
def editAuthReq (token groupID : String) : AuthorizeReq :=
  { subjectType := userType, subjectKind := tokenKind, subject := token,
    permission := editPermission, objectType := groupType, object := groupID }

/-- A groups environment that grants every authorization and answers every
call successfully, used to evaluate concrete runs. -/
def grantAllGroupsEnv : GroupsEnv :=
  { authIdentify := fun _ => .ok "uid0",
    authAuthorize := fun _ => .ok { authorized := true, id := "uid0" },
    authAddPolicy := fun _ => .ok { authorized := true, id := "" },
    authDeletePolicy := fun _ => .ok { authorized := true, id := "" },
    authListAllObjects := fun _ => .ok [],
    authListAllSubjects := fun _ => .ok [],
    idGen := .ok "gid0",
    now := 7,
    gSave := fun g => .ok g,
    gUpdate := fun g => .ok g,
    gRetrieveByID := fun _ => .ok emptyGroup,
    gRetrieveByIDs := fun gm _ => .ok gm,
    gChangeStat := fun g => .ok g }

/-- Claim C1, counterexample: with an unsupported member kind (channels)
and a granting environment, Assign does fail with the invalid member kind
error, but its trace contains a network call (the edit authorization),
contradicting the claim that zero network calls are performed before the
failure. -/
theorem c1_counterexample :
    (Assign grantAllGroupsEnv "tok" "g1" "rel" "channels" ["m1"]).1 =
      .error .invalidMemberKind ∧
    ((Assign grantAllGroupsEnv "tok" "g1" "rel" "channels" ["m1"]).2.any
       Call.isNetwork) = true := by
  exact ⟨rfl, rfl⟩

/-- Claim C1 as amended: for every unsupported member kind, each of
ListMembers, Assign and Unassign returns the invalid member kind error
after the single authorize call on the group (a network call), and issues
no policy or repository call: the whole trace is exactly that one
authorize request. -/
theorem c1_invalid_kind_amended (env : GroupsEnv)
    (token groupID permission relation : String) (memberIDs : List String)
    (kind : String) (res : AuthorizeRes)
    (hk1 : kind ≠ thingsKind) (hk2 : kind ≠ usersKind) (hk3 : kind ≠ groupsKind)
    (hview : env.authAuthorize (viewAuthReq token groupID) = .ok res)
    (hedit : env.authAuthorize (editAuthReq token groupID) = .ok res)
    (hgrant : res.authorized = true) :
    ListMembers env token groupID permission kind =
      (.error .invalidMemberKind, [.authAuthorize (viewAuthReq token groupID)]) ∧
    Assign env token groupID relation kind memberIDs =
      (.error .invalidMemberKind, [.authAuthorize (editAuthReq token groupID)]) ∧
    Unassign env token groupID relation kind memberIDs =
      (.error .invalidMemberKind, [.authAuthorize (editAuthReq token groupID)]) := by
  simp only [viewAuthReq, editAuthReq] at hview hedit
  refine ⟨?_, ?_, ?_⟩ <;>
    simp [ListMembers, Assign, Unassign, gAuthorize, viewAuthReq, editAuthReq,
      step, hview, hedit, hgrant, hk1, hk2, hk3]

/-- Witness for the amended claim C1 at a concrete granting environment
and the unsupported kind channels. -/
theorem c1_invalid_kind_amended_witness :
    ListMembers grantAllGroupsEnv "tok" "g1" "view" "channels" =
      (.error .invalidMemberKind, [.authAuthorize (viewAuthReq "tok" "g1")]) ∧
    Assign grantAllGroupsEnv "tok" "g1" "rel" "channels" ["m1"] =
      (.error .invalidMemberKind, [.authAuthorize (editAuthReq "tok" "g1")]) ∧
    Unassign grantAllGroupsEnv "tok" "g1" "rel" "channels" ["m1"] =
      (.error .invalidMemberKind, [.authAuthorize (editAuthReq "tok" "g1")]) :=
  c1_invalid_kind_amended grantAllGroupsEnv "tok" "g1" "view" "rel" ["m1"]
    "channels" { authorized := true, id := "uid0" }
    (by decide) (by decide) (by decide) rfl rfl rfl

/-- True for the authorize call carrying the edit permission on the given
object, as issued for a parent group by CreateGroup. -/
def Call.isEditAuthOn (parent : String) : Call → Bool
  | .authAuthorize r => r.object == parent && r.permission == editPermission
  | _ => false

/-- Claim C2: for every CreateGroup call whose group has a non-empty
parent, every call preceding the edit authorization on the parent is
neither a repository save nor a tuple write (the authorization comes
before any persistence write); and when that authorization is denied the
result is the distinct parent-authorization error wrapping the plain
denial, with no save and no tuple write anywhere in the trace. -/
theorem c2_parent_authorization (env : GroupsEnv) (token : String) (g : MfGroup)
    (hp : g.parent ≠ "") :
    (((CreateGroup env token g).2.takeWhile fun c => !(c.isEditAuthOn g.parent)).all
        fun c => !(c.isGroupWrite)) = true ∧
    (∀ uid gid res, env.authIdentify token = .ok uid → env.idGen = .ok gid →
      (g.status = .enabled ∨ g.status = .disabled) →
      env.authAuthorize (editAuthReq token g.parent) = .ok res →
      res.authorized = false →
      (CreateGroup env token g).1 = .error (.wrap .parentUnAuthz .authorization) ∧
      ((CreateGroup env token g).2.all fun c => !(c.isGroupWrite)) = true) := by
  constructor
  · unfold CreateGroup
    cases h1 : env.authIdentify token with
    | error e =>
      simp [GroupsEnv.callIdentify, step, h1, Call.isEditAuthOn, Call.isGroupWrite]
    | ok uid =>
      cases h2 : env.idGen with
      | error e =>
        simp [GroupsEnv.callIdentify, GroupsEnv.callIdGen, step, h1, h2,
          Call.isEditAuthOn, Call.isGroupWrite]
      | ok gid =>
        simp only [GroupsEnv.callIdentify, GroupsEnv.callIdGen, step, h1, h2]
        split
        · simp [Call.isEditAuthOn, Call.isGroupWrite]
        · simp only [gAuthorize, apply_ite MfGroup.parent, setID_parent,
            setOwner_parent, setCreatedAt_parent, ite_self, hp, if_true, ne_eq,
            not_false_eq_true]
          cases h3 : env.authAuthorize (editAuthReq token g.parent) with
          | error e =>
            simp only [editAuthReq] at h3
            simp [step, h3, Call.isEditAuthOn, Call.isGroupWrite]
          | ok res =>
            simp only [editAuthReq] at h3
            by_cases hr : res.authorized = true
            · simp [step, h3, hr, Call.isEditAuthOn, Call.isGroupWrite]
            · simp [step, h3, hr, Call.isEditAuthOn, Call.isGroupWrite]
  · intro uid gid res h1 h2 hs h3 hr
    simp only [editAuthReq] at h3
    unfold CreateGroup
    simp only [GroupsEnv.callIdentify, GroupsEnv.callIdGen, step, h1, h2]
    rw [if_neg (not_not_intro hs)]
    simp only [gAuthorize, apply_ite MfGroup.parent, setID_parent, setOwner_parent,
      setCreatedAt_parent, ite_self, hp, if_true, ne_eq, not_false_eq_true]
    simp [step, h3, hr, Call.isGroupWrite]

/-- A groups environment that denies every authorization but answers every
other call successfully. -/
def denyAllGroupsEnv : GroupsEnv :=
  { grantAllGroupsEnv with
    authAuthorize := fun _ => .ok { authorized := false, id := "" } }

/-- A concrete enabled group with a parent set, for the CreateGroup runs. -/
def c2group : MfGroup := .mk "idX" "own" "p1" "n" "" "" 0 "" [] 0 0 "" .enabled

/-- Witness for claim C2: a concrete denied CreateGroup run with a parent
set, where the result is the parent-authorization error and nothing is
written. -/
theorem c2_parent_authorization_witness :
    (((CreateGroup denyAllGroupsEnv "tok" c2group).2.takeWhile
        fun c => !(c.isEditAuthOn c2group.parent)).all
        fun c => !(c.isGroupWrite)) = true ∧
    (CreateGroup denyAllGroupsEnv "tok" c2group).1 =
      .error (.wrap .parentUnAuthz .authorization) ∧
    ((CreateGroup denyAllGroupsEnv "tok" c2group).2.all
        fun c => !(c.isGroupWrite)) = true := by
  have h := c2_parent_authorization denyAllGroupsEnv "tok" c2group (by decide)
  have h2 := h.2 "uid0" "gid0" { authorized := false, id := "" }
    rfl rfl (Or.inl rfl) rfl rfl
  exact ⟨h.1, h2.1, h2.2⟩

/-- A users environment in which hashing a secret s yields H followed by
s, and every collaborator call succeeds. -/
def usersEnvH : UsersEnv :=
  { authIdentify := fun _ => .ok "uid0",
    idGen := .ok "cid0",
    now := 3,
    hash := fun s => .ok ("H" ++ s),
    passRegexMatch := fun _ => true,
    uSave := fun c => .ok c,
    uRetrieveByID := fun _ => .ok { credentials := { identity := "ida", secret := "HS" } },
    uUpdateSecret := fun c => .ok c,
    uIsOwner := fun _ _ => .ok () }

/-- A things environment whose cache always misses and whose other
collaborators all succeed. -/
def thingsEnvOk : ThingsEnv :=
  { authIdentify := fun _ => .ok "uid0",
    authAuthorize := fun _ => .ok { authorized := true, id := "uid0" },
    idGen := .ok "tid0",
    now := 5,
    cSave := fun cs => .ok cs,
    cRetrieveByID := fun _ => .ok {},
    cRetrieveBySecret := fun _ => .ok { id := "cid1" },
    cUpdateSecret := fun c => .ok c,
    cChangeStat := fun c => .ok c,
    cacheID := fun _ => .error .notFound,
    cacheSave := fun _ _ => .ok (),
    cacheRemove := fun _ => .ok () }

/-- A thing with a caller-supplied id and raw secret. -/
def c3thing : Client := { id := "t1", credentials := { identity := "", secret := "raw" } }

/-- The record the things service passes to the repository for c3thing. -/
def c3saved : Client := { c3thing with owner := "uid0", createdAt := 5 }

/-- Claim C3, counterexample: CreateThings of the things service persists
the supplied secret itself.  In a concrete successful run the repository
save call receives exactly the raw supplied secret, not a hash of it (the
things service has no hasher at all). -/
theorem c3_counterexample :
    (thingsCreateThings thingsEnvOk "tok" [c3thing]).2 =
      [.authIdentify "tok", .clientsSave [c3saved]] ∧
    c3saved.credentials.secret = c3thing.credentials.secret ∧
    c3thing.credentials.secret = "raw" :=
  ⟨rfl, rfl, rfl⟩


theorem prepareThings_nil (env : ThingsEnv) (u : String) :
    prepareThings env u [] = (.ok [], []) := rfl

set_option maxHeartbeats 2000000 in
/-- Claim C3 as amended: in the users service the raw secret is never
persisted, every client handed to the repository save or update-secret
call carries the hash of the supplied secret (registration and password
reset); in the things service, by contrast, thing creation and the thing
secret update persist the supplied secret as it is (the things service
has no hasher, its secrets must remain recoverable by value for the
retrieve-by-secret lookup). -/
theorem c3_secrets_amended :
    (∀ (env : UsersEnv) (token : String) (cli : Client) (h : String),
      env.hash cli.credentials.secret = .ok h →
      ∀ c, Call.clientsSaveOne c ∈ (usersRegisterClient env token cli).2 →
        c.credentials.secret = h) ∧
    (∀ (env : UsersEnv) (resetToken secret h : String),
      env.hash secret = .ok h →
      ∀ c, Call.clientsUpdateSecret c ∈ (usersResetSecret env resetToken secret).2 →
        c.credentials.secret = h) ∧
    (∀ (env : ThingsEnv) (token : String) (cli : Client),
      cli.id ≠ "" → cli.credentials.secret ≠ "" →
      ∀ cs, Call.clientsSave cs ∈ (thingsCreateThings env token [cli]).2 →
        (cs.map fun c => c.credentials.secret) = [cli.credentials.secret]) ∧
    (∀ (env : ThingsEnv) (token id key : String),
      ∀ c, Call.clientsUpdateSecret c ∈ (thingsUpdateClientSecret env token id key).2 →
        c.credentials.secret = key) := by
  refine ⟨?_, ?_, ?_, ?_⟩
  · intro env token cli h hh c hc
    unfold usersRegisterClient at hc
    simp only [step] at hc
    repeat' split at hc
    all_goals aesop
  · intro env resetToken secret h hh c hc
    unfold usersResetSecret at hc
    simp only [step] at hc
    repeat' split at hc
    all_goals aesop
  · intro env token cli hid hsec cs hc
    unfold thingsCreateThings prepareThings at hc
    simp only [step, ThingsEnv.callIdentify, prepareThings_nil] at hc
    repeat' split at hc
    all_goals aesop
  · intro env token id key c hc
    unfold thingsUpdateClientSecret tAuthorize at hc
    simp only [step, ThingsEnv.callIdentify] at hc
    repeat' split at hc
    all_goals aesop

/-- A user registration request with a set secret. -/
def c3user : Client := { credentials := { identity := "ida", secret := "s" } }

/-- Witness for the amended claim C3 at concrete environments: the user
paths persist the hash (H prefixed to the secret under the witness
hasher), the thing paths persist the raw value. -/
theorem c3_secrets_amended_witness :
    (∀ c, Call.clientsSaveOne c ∈ (usersRegisterClient usersEnvH "t" c3user).2 →
      c.credentials.secret = "Hs") ∧
    (∀ c, Call.clientsUpdateSecret c ∈ (usersResetSecret usersEnvH "t" "news").2 →
      c.credentials.secret = "Hnews") ∧
    (∀ cs, Call.clientsSave cs ∈ (thingsCreateThings thingsEnvOk "t" [c3thing]).2 →
      (cs.map fun c => c.credentials.secret) = ["raw"]) ∧
    (∀ c, Call.clientsUpdateSecret c ∈ (thingsUpdateClientSecret thingsEnvOk "t" "id1" "k1").2 →
      c.credentials.secret = "k1") :=
  ⟨c3_secrets_amended.1 usersEnvH "t" c3user "Hs" rfl,
   c3_secrets_amended.2.1 usersEnvH "t" "news" "Hnews" rfl,
   c3_secrets_amended.2.2.1 thingsEnvOk "t" c3thing (by decide) (by decide),
   c3_secrets_amended.2.2.2 thingsEnvOk "t" "id1" "k1"⟩

/-- The list-objects request of ListGroups: groups the identified caller
may view. -/
def callerViewReq (uid : String) : ListObjectsReq :=
  { subjectType := userType, subject := uid, permission := viewPermission,
    objectType := groupType }

/-- The list-subjects request of ListGroups for the things member kind:
group subjects allowed to view the thing. -/
def thingViewersReq (memberID : String) : ListSubjectsReq :=
  { subjectType := groupType, permission := viewPermission,
    objectType := thingType, object := memberID }

/-- Claim C4: for ListGroups with the things member kind, the candidate id
list passed to retrieval is exactly the intersection of the caller-visible
group set and the set of group subjects that may view the thing (an id is
a candidate precisely when it is in both lists); for any other member kind
the caller-visible set is passed directly. -/
theorem c4_list_groups_candidates (env : GroupsEnv) (token memberID : String)
    (gm : GroupsPage) (uid : String) (allowed cids : List String)
    (h1 : env.authIdentify token = .ok uid)
    (h2 : env.authListAllObjects (callerViewReq uid) = .ok allowed)
    (h3 : env.authListAllSubjects (thingViewersReq memberID) = .ok cids) :
    ((ListGroups env token thingsKind memberID gm).2 =
      [.authIdentify token, .authListAllObjects (callerViewReq uid),
       .authListAllSubjects (thingViewersReq memberID),
       .groupsRetrieveByIDs
         (cids.flatMap fun cid => allowed.filter fun id => id == cid)] ∧
     ∀ x, x ∈ (cids.flatMap fun cid => allowed.filter fun id => id == cid) ↔
       (x ∈ allowed ∧ x ∈ cids)) ∧
    ∀ kind, kind ≠ thingsKind →
      (ListGroups env token kind memberID gm).2 =
        [.authIdentify token, .authListAllObjects (callerViewReq uid),
         .groupsRetrieveByIDs allowed] := by
  simp only [callerViewReq, thingViewersReq] at h2 h3
  refine ⟨⟨?_, ?_⟩, ?_⟩
  · unfold ListGroups
    cases h4 : env.gRetrieveByIDs gm
        (cids.flatMap fun cid => allowed.filter fun id => id == cid) <;>
      simp [GroupsEnv.callIdentify, GroupsEnv.callListAllObjects,
        GroupsEnv.callListAllSubjects, GroupsEnv.callGRetrieveByIDs, step,
        callerViewReq, thingViewersReq, h1, h2, h3, h4]
  · intro x
    simp only [List.mem_flatMap, List.mem_filter, beq_iff_eq]
    constructor
    · rintro ⟨cid, hcid, hx, rfl⟩
      exact ⟨hx, hcid⟩
    · rintro ⟨hx, hc⟩
      exact ⟨x, hc, hx, rfl⟩
  · intro kind hkind
    unfold ListGroups
    cases h4 : env.gRetrieveByIDs gm allowed <;>
      simp [GroupsEnv.callIdentify, GroupsEnv.callListAllObjects,
        GroupsEnv.callGRetrieveByIDs, step, callerViewReq, h1, h2, h4, hkind]

/-- The environment of the concrete C4 run: the caller sees groups A, B
and C, the thing participates in B, C and D. -/
def c4env : GroupsEnv :=
  { grantAllGroupsEnv with
    authListAllObjects := fun _ => .ok ["A", "B", "C"],
    authListAllSubjects := fun _ => .ok ["B", "C", "D"] }

/-- Witness for claim C4: with caller-visible set [A, B, C] and
thing-visible set [B, C, D] the candidates are exactly [B, C]; with
another member kind the caller-visible set is passed through. -/
theorem c4_list_groups_candidates_witness :
    ((ListGroups c4env "tok" thingsKind "T" {}).2 =
      [.authIdentify "tok", .authListAllObjects (callerViewReq "uid0"),
       .authListAllSubjects (thingViewersReq "T"),
       .groupsRetrieveByIDs ["B", "C"]] ∧
     ∀ x, x ∈ ["B", "C"] ↔ (x ∈ ["A", "B", "C"] ∧ x ∈ ["B", "C", "D"])) ∧
    ∀ kind, kind ≠ thingsKind →
      (ListGroups c4env "tok" kind "T" {}).2 =
        [.authIdentify "tok", .authListAllObjects (callerViewReq "uid0"),
         .groupsRetrieveByIDs ["A", "B", "C"]] :=
  c4_list_groups_candidates c4env "tok" "T" {} "uid0" ["A", "B", "C"]
    ["B", "C", "D"] rfl rfl rfl

/-- The authorize request of the things status-change path: the delete
permission on the thing, with the resolved caller as subject. -/
def deleteAuthReq (uid cid : String) : AuthorizeReq :=
  { subjectType := userType, subject := uid, permission := deletePermission,
    objectType := thingType, object := cid }

/-- Claim C5: a status change whose requested status equals the stored
status returns the status-already-assigned conflict error and never
reaches the persistence ChangeStatus call, both for groups
(changeGroupStatus) and for things (changeClientStatus): the trace stops
at the retrieval. -/
theorem c5_status_conflict (genv : GroupsEnv) (tenv : ThingsEnv)
    (token : String) (g dbg : MfGroup) (c dbc : Client)
    (res : AuthorizeRes) (uid : String)
    (hga : genv.authAuthorize (editAuthReq token g.id) = .ok res)
    (hgr : res.authorized = true)
    (hgdb : genv.gRetrieveByID g.id = .ok dbg)
    (hgs : dbg.status = g.status)
    (hti : tenv.authIdentify token = .ok uid)
    (hta : tenv.authAuthorize (deleteAuthReq uid c.id) = .ok res)
    (htdb : tenv.cRetrieveByID c.id = .ok dbc)
    (hts : dbc.status = c.status) :
    changeGroupStatus genv token g =
      (.error .statusAlreadyAssigned,
       [.authAuthorize (editAuthReq token g.id), .groupsRetrieveByID g.id]) ∧
    thingsChangeClientStatus tenv token c =
      (.error .statusAlreadyAssigned,
       [.authIdentify token, .authAuthorize (deleteAuthReq uid c.id),
        .clientsRetrieveByID c.id]) := by
  simp only [editAuthReq] at hga
  simp only [deleteAuthReq] at hta
  constructor
  · unfold changeGroupStatus
    simp [gAuthorize, GroupsEnv.callGRetrieveByID, step, editAuthReq,
      hga, hgr, hgdb, hgs]
  · unfold thingsChangeClientStatus
    simp [tAuthorize, ThingsEnv.callIdentify, step, deleteAuthReq,
      hti, hta, hgr, htdb, hts]

/-- Witness for claim C5: concrete no-op transitions (enable of an already
enabled group and client) yield the conflict error with no ChangeStatus
call in either trace. -/
theorem c5_status_conflict_witness :
    changeGroupStatus grantAllGroupsEnv "tok" (emptyGroup.setID "g1") =
      (.error .statusAlreadyAssigned,
       [.authAuthorize (editAuthReq "tok" "g1"), .groupsRetrieveByID "g1"]) ∧
    thingsChangeClientStatus thingsEnvOk "tok" { id := "c1" } =
      (.error .statusAlreadyAssigned,
       [.authIdentify "tok", .authAuthorize (deleteAuthReq "uid0" "c1"),
        .clientsRetrieveByID "c1"]) :=
  c5_status_conflict grantAllGroupsEnv thingsEnvOk "tok" (emptyGroup.setID "g1")
    emptyGroup { id := "c1" } {} { authorized := true, id := "uid0" } "uid0"
    rfl rfl rfl rfl rfl rfl rfl rfl

/-- Claim C7: for a secret key the cache misses, Identify performs exactly
one storage lookup by secret and exactly one cache write and returns the
resolved client id; after the cache holds the pair, a second Identify with
the same secret performs zero storage lookups and returns the cached id. -/
theorem c7_identify_cache (env : ThingsEnv) (key : String) (e : Err) (c : Client)
    (hmiss : env.cacheID key = .error e)
    (hret : env.cRetrieveBySecret key = .ok c)
    (hsave : env.cacheSave key c.id = .ok ()) :
    thingsIdentify env key =
      (.ok c.id, [.cacheID key, .clientsRetrieveBySecret key,
                  .cacheSave key c.id]) ∧
    ((thingsIdentify env key).2.filter Call.isBySecretLookup).length = 1 ∧
    ((thingsIdentify env key).2.filter Call.isCacheWrite).length = 1 ∧
    thingsIdentify (cacheUpdated env key c.id) key = (.ok c.id, [.cacheID key]) ∧
    ((thingsIdentify (cacheUpdated env key c.id) key).2.filter
       Call.isBySecretLookup).length = 0 := by
  have hfirst : thingsIdentify env key =
      (.ok c.id, [.cacheID key, .clientsRetrieveBySecret key,
                  .cacheSave key c.id]) := by
    unfold thingsIdentify
    simp [hmiss, hret, hsave]
  have hsecond : thingsIdentify (cacheUpdated env key c.id) key =
      (.ok c.id, [.cacheID key]) := by
    unfold thingsIdentify cacheUpdated
    simp
  refine ⟨hfirst, ?_, ?_, hsecond, ?_⟩ <;>
    simp [hfirst, hsecond, Call.isBySecretLookup, Call.isCacheWrite]

/-- Witness for claim C7 at the concrete always-miss environment: the
first call resolves client cid1 from storage and writes the cache, the
updated cache serves the second call without storage. -/
theorem c7_identify_cache_witness :
    thingsIdentify thingsEnvOk "sec" =
      (.ok "cid1", [.cacheID "sec", .clientsRetrieveBySecret "sec",
                    .cacheSave "sec" "cid1"]) ∧
    ((thingsIdentify thingsEnvOk "sec").2.filter Call.isBySecretLookup).length = 1 ∧
    ((thingsIdentify thingsEnvOk "sec").2.filter Call.isCacheWrite).length = 1 ∧
    thingsIdentify (cacheUpdated thingsEnvOk "sec" "cid1") "sec" =
      (.ok "cid1", [.cacheID "sec"]) ∧
    ((thingsIdentify (cacheUpdated thingsEnvOk "sec" "cid1") "sec").2.filter
       Call.isBySecretLookup).length = 0 :=
  c7_identify_cache thingsEnvOk "sec" .notFound { id := "cid1" } rfl rfl rfl

/-- The self-referential authorize request issued by the things
UpdateClientSecret: the resolved caller id appears as both the subject and
the object of the edit check. -/
def selfEditAuthReq (uid : String) : AuthorizeReq :=
  { subjectType := userType, subject := uid, permission := editPermission,
    objectType := thingType, object := uid }

/-- Claim C8: the things UpdateClientSecret authorizes the edit permission
with the resolved caller id as both subject and target object, rather than
the id argument of the client being mutated: right after identify, the
trace carries the authorize request whose object equals the caller id. -/
theorem c8_update_secret_self_object (env : ThingsEnv) (token id key uid : String)
    (h1 : env.authIdentify token = .ok uid) :
    (∃ rest, (thingsUpdateClientSecret env token id key).2 =
      .authIdentify token :: .authAuthorize (selfEditAuthReq uid) :: rest) ∧
    (selfEditAuthReq uid).object = uid ∧ (selfEditAuthReq uid).subject = uid := by
  refine ⟨?_, rfl, rfl⟩
  unfold thingsUpdateClientSecret tAuthorize
  cases h2 : env.authAuthorize (selfEditAuthReq uid) with
  | error e =>
    simp only [selfEditAuthReq] at h2
    simp only [ThingsEnv.callIdentify, step, h1, h2, List.cons_append,
      List.nil_append, List.singleton_append]
    exact ⟨_, rfl⟩
  | ok res =>
    simp only [selfEditAuthReq] at h2
    by_cases hr : res.authorized = true <;>
      simp only [ThingsEnv.callIdentify, step, h1, h2, hr, if_true, if_false,
        List.cons_append, List.nil_append, List.singleton_append,
        Bool.false_eq_true, ite_false, ite_true] <;>
      exact ⟨_, rfl⟩

/-- Witness for claim C8: in a concrete run with caller uid0 updating the
secret of the distinct thing t9, the authorize object is uid0, not t9. -/
theorem c8_update_secret_self_object_witness :
    (∃ rest, (thingsUpdateClientSecret thingsEnvOk "tok" "t9" "k9").2 =
      .authIdentify "tok" :: .authAuthorize (selfEditAuthReq "uid0") :: rest) ∧
    (selfEditAuthReq "uid0").object = "uid0" ∧
    (selfEditAuthReq "uid0").subject = "uid0" :=
  c8_update_secret_self_object thingsEnvOk "tok" "t9" "k9" "uid0" rfl

/-- Claim C9: RegisterClient never fails on an unidentifiable bearer
token: with a failing identify the whole run equals the run in which the
identity resolves to the empty string, and the owner of the saved record
is the one supplied by the caller; when an identity is resolved, it is
used only to default an unset owner. -/
theorem c9_register_ignores_identify (env : UsersEnv) (token : String)
    (cli : Client) :
    (∀ e, env.authIdentify token = .error e →
      usersRegisterClient env token cli =
        usersRegisterClient { env with authIdentify := fun _ => .ok "" } token cli ∧
      ∀ c, Call.clientsSaveOne c ∈ (usersRegisterClient env token cli).2 →
        c.owner = cli.owner) ∧
    (∀ uid, env.authIdentify token = .ok uid → uid ≠ "" → cli.owner = "" →
      ∀ c, Call.clientsSaveOne c ∈ (usersRegisterClient env token cli).2 →
        c.owner = uid) := by
  constructor
  · intro e he
    constructor
    · unfold usersRegisterClient
      simp [he, step]
    · intro c hc
      unfold usersRegisterClient at hc
      simp only [he, step] at hc
      repeat' split at hc
      all_goals aesop
  · intro uid hid hne hown c hc
    unfold usersRegisterClient at hc
    simp only [hid, step] at hc
    repeat' split at hc
    all_goals aesop

/-- A users environment whose identify always fails. -/
def usersEnvNoAuth : UsersEnv :=
  { usersEnvH with authIdentify := fun _ => .error .authentication }

/-- A registration request with an owner already set. -/
def c9owned : Client :=
  { owner := "own1", credentials := { identity := "ida", secret := "s" } }

/-- Witness for claim C9: with a failing identify, registration of a
client with owner own1 proceeds and saves owner own1; with identity uid0
resolved and no owner set, the saved owner is uid0. -/
theorem c9_register_ignores_identify_witness :
    (usersRegisterClient usersEnvNoAuth "t" c9owned =
      usersRegisterClient { usersEnvNoAuth with authIdentify := fun _ => .ok "" }
        "t" c9owned ∧
     ∀ c, Call.clientsSaveOne c ∈ (usersRegisterClient usersEnvNoAuth "t" c9owned).2 →
       c.owner = c9owned.owner) ∧
    (∀ c, Call.clientsSaveOne c ∈ (usersRegisterClient usersEnvH "t" c3user).2 →
      c.owner = "uid0") :=
  ⟨(c9_register_ignores_identify usersEnvNoAuth "t" c9owned).1
      .authentication rfl,
   (c9_register_ignores_identify usersEnvH "t" c3user).2 "uid0" rfl
      (by decide) rfl⟩

/-- The client returned by the users view paths under the witness
environment: retrieved record with the secret blanked. -/
def c10res : Client := { credentials := { identity := "ida", secret := "" } }

/-- Claim C10: ViewClient and ViewProfile of the users service never
expose the stored secret hash: every successfully returned client carries
the empty string in the credentials secret field, whatever the repository
returned. -/
theorem c10_view_blanks_secret (env : UsersEnv) (token id : String) :
    (∀ c, (usersViewClient env token id).1 = .ok c →
      c.credentials.secret = "") ∧
    (∀ c, (usersViewProfile env token).1 = .ok c →
      c.credentials.secret = "") := by
  constructor
  · intro c hc
    unfold usersViewClient at hc
    simp only [step] at hc
    repeat' split at hc
    all_goals aesop
  · intro c hc
    unfold usersViewProfile at hc
    simp only [step] at hc
    repeat' split at hc
    all_goals aesop

/-- Witness for claim C10: concrete successful view calls return the
record with the blanked secret. -/
theorem c10_view_blanks_secret_witness :
    ((usersViewClient usersEnvH "t" "x1").1 = .ok c10res ∧
     c10res.credentials.secret = "") ∧
    ((usersViewProfile usersEnvH "t").1 = .ok c10res ∧
     c10res.credentials.secret = "") :=
  ⟨⟨rfl, (c10_view_blanks_secret usersEnvH "t" "x1").1 c10res rfl⟩,
   ⟨rfl, (c10_view_blanks_secret usersEnvH "t" "x1").2 c10res rfl⟩⟩
